import Mathlib

/-
  Verification of the L4-VIRTIO transport layer (kernkonzept/l4virtio)
  against its natural-language specification.

  The shallow embedding below follows src/include/virtio.h. Structures
  and enumeration constants are embedded from the header directly. The
  control-plane functions l4virtio_set_status, l4virtio_config_queue and
  l4virtio_register_ds are declared in the header but their bodies are
  not part of the source tree; where a claim depends on their behaviour
  the definition is modelled from the spec and says so in its comment.
-/

namespace L4virtio

/- ------------------------------------------------------------------
   Enumeration constants, from src/include/virtio.h
   ------------------------------------------------------------------ -/

-- enum L4_virtio_protocol
def L4VIRTIO_PROTOCOL : Nat := 0

-- enum L4_virtio_opcodes (C enumerators without initializer count up from 0)
def L4VIRTIO_OP_SET_STATUS : Nat := 0

def L4VIRTIO_OP_CONFIG_QUEUE : Nat := L4VIRTIO_OP_SET_STATUS + 1

def L4VIRTIO_OP_REGISTER_IFACE : Nat := L4VIRTIO_OP_CONFIG_QUEUE + 1

def L4VIRTIO_OP_REGISTER_DS : Nat := L4VIRTIO_OP_REGISTER_IFACE + 1

-- enum L4virtio_device_ids
def L4VIRTIO_ID_NET : Nat := 1

def L4VIRTIO_ID_BLOCK : Nat := 2

def L4VIRTIO_ID_CONSOLE : Nat := 3

def L4VIRTIO_ID_RNG : Nat := 4

def L4VIRTIO_ID_BALLOON : Nat := 5

def L4VIRTIO_ID_RPMSG : Nat := 7

def L4VIRTIO_ID_SCSI : Nat := 8

def L4VIRTIO_ID_9P : Nat := 9

def L4VIRTIO_ID_RPROC_SERIAL : Nat := 11

def L4VIRTIO_ID_CAIF : Nat := 12

def L4VIRTIO_ID_SOCK : Nat := 0x9999

/-- The set of device-class identifier values assigned by enum
L4virtio_device_ids, in declaration order. -/
def deviceIdValues : List Nat :=
  [L4VIRTIO_ID_NET, L4VIRTIO_ID_BLOCK, L4VIRTIO_ID_CONSOLE, L4VIRTIO_ID_RNG,
   L4VIRTIO_ID_BALLOON, L4VIRTIO_ID_RPMSG, L4VIRTIO_ID_SCSI, L4VIRTIO_ID_9P,
   L4VIRTIO_ID_RPROC_SERIAL, L4VIRTIO_ID_CAIF, L4VIRTIO_ID_SOCK]

-- enum L4virtio_device_status
def L4VIRTIO_STATUS_ACKNOWLEDGE : Nat := 1

def L4VIRTIO_STATUS_DRIVER : Nat := 2

def L4VIRTIO_STATUS_DRIVER_OK : Nat := 4

def L4VIRTIO_STATUS_FEATURES_OK : Nat := 8

def L4VIRTIO_STATUS_FAILED : Nat := 0x80

/- ------------------------------------------------------------------
   Shared-memory layout of the config structures.

   struct l4virtio_config_hdr_t and struct l4virtio_config_queue_t are
   embedded as ordered lists of (field name, byte size) pairs. All
   fields are naturally aligned in the C structs (the header is all
   32-bit words; the queue entry is 16,16,32,32 bits), so the byte
   offset of a field is the sum of the sizes of the fields before it
   and the struct size is the sum of all field sizes.
   ------------------------------------------------------------------ -/

/-- Field list of struct l4virtio_config_hdr_t: name and byte size, in
declaration order. host_features and guest_features are arrays of 8
32-bit words, 32 bytes each. -/
def l4virtio_config_hdr_fields : List (String × Nat) :=
  [("magic", 4), ("version", 4), ("device", 4), ("vendor", 4),
   ("num_queues", 4), ("queues_offset", 4), ("dev_cfg_offset", 4),
   ("generation", 4), ("status", 4), ("irq_status", 4),
   ("host_features", 32), ("guest_features", 32), ("guest_page_size", 4)]

/-- Field list of struct l4virtio_config_queue_t. -/
def l4virtio_config_queue_fields : List (String × Nat) :=
  [("num_max", 2), ("num", 2), ("align", 4), ("pfn", 4)]

/-- Assign byte offsets to a field list, starting at a given offset:
each field starts where the previous one ended. -/
def layoutOffsets : List (String × Nat) → Nat → List (String × Nat)
  | [], _ => []
  | (n, sz) :: rest, off => (n, off) :: layoutOffsets rest (off + sz)

/-- Byte offset of a named field within a struct given by its field list. -/
def fieldOffset (fields : List (String × Nat)) (name : String) : Option Nat :=
  (layoutOffsets fields 0).lookup name

/-- Byte size of a named field. -/
def fieldSize (fields : List (String × Nat)) (name : String) : Option Nat :=
  fields.lookup name

/-- Total byte size of a struct given by its field list. -/
def structSize (fields : List (String × Nat)) : Nat :=
  (fields.map Prod.snd).sum

/- ------------------------------------------------------------------
   Config-region accessors, from src/include/virtio.h

   l4virtio_config_queues and l4virtio_device_config are the two
   L4_INLINE functions of the header. Each casts the header pointer to
   an address and adds the respective offset field; addresses are
   modelled as natural numbers.
   ------------------------------------------------------------------ -/

/-- The offset-carrying fields of l4virtio_config_hdr_t that the inline
accessors read. -/
structure ConfigHdr where
  num_queues : Nat
  queues_offset : Nat
  dev_cfg_offset : Nat
  guest_page_size : Nat
  deriving Repr, DecidableEq

/-- Embedding of l4virtio_config_queues: returns
(l4_addr_t)cfg + cfg->queues_offset, with no further checks. -/
def l4virtio_config_queues (cfg_addr : Nat) (cfg : ConfigHdr) : Nat :=
  cfg_addr + cfg.queues_offset

/-- Embedding of l4virtio_device_config: returns
(l4_addr_t)cfg + cfg->dev_cfg_offset, with no further checks. -/
def l4virtio_device_config (cfg_addr : Nat) (cfg : ConfigHdr) : Nat :=
  cfg_addr + cfg.dev_cfg_offset

/- ------------------------------------------------------------------
   Region registration rights masking.

   The body of l4virtio_register_ds is not part of the source tree
   (the header only declares it); its rights handling is modelled from
   the spec and the header documentation.
   ------------------------------------------------------------------ -/

/-- Modelled from the spec: per the header documentation of
l4virtio_register_ds, the lower 8 bits of the data-space capability
selector determine the rights mask with which the callers rights are
masked during registration of the dataspace at the VIRTIO host. -/
def rightsMask (ds_cap : Nat) : Nat := ds_cap % 256

/-- Modelled from the spec: the rights the device ends up holding are
the callers rights masked (bitwise intersected) with the mask encoded
in the low bits of the handle. -/
def effectiveRights (caller_rights ds_cap : Nat) : Nat :=
  caller_rights &&& rightsMask ds_cap

/- ------------------------------------------------------------------
   Queue configuration.

   The body of l4virtio_config_queue is not part of the source tree;
   the validation logic is modelled from spec section 4.3 together
   with the documented return values in the header: 0 on success,
   -L4_EIO when the queue state written by the driver is invalid,
   -L4_ERANGE when the queue index exceeds the number of queues,
   -L4_EINVAL otherwise. The numeric error values follow the L4Re
   convention (L4_EIO = 5, L4_EINVAL = 22, L4_ERANGE = 34, returned
   negated); only their distinctness and sign matter here.
   ------------------------------------------------------------------ -/

/-- Driver-writable queue config entry (see l4virtio_config_queue_t). -/
structure QueueConfig where
  num_max : Nat
  num : Nat
  align : Nat
  pfn : Nat
  deriving Repr, DecidableEq

/-- The device-side state that queue configuration reads: the queue
config array (one entry per queue, so num_queues is its length), the
guest page size from the config header, and the size of the registered
transport memory region. -/
structure DeviceState where
  queues : List QueueConfig
  guest_page_size : Nat
  ds_size : Nat
  deriving Repr, DecidableEq

/-- Number of virtqueues of the device (length of the queue config array). -/
def numQueues (dev : DeviceState) : Nat := dev.queues.length

/-- Round x up to the next multiple of a (identity when a is zero). -/
def alignUp (x a : Nat) : Nat := if a = 0 then x else (x + a - 1) / a * a

/-- Modelled from the spec: byte size of the ring layout of a queue with
num descriptors and used-ring alignment align, laid out as descriptor
table (16 bytes per entry), available ring (flags, index, num slots of
2 bytes, event field), padding up to align, used ring (flags, index,
num slots of 8 bytes, event field). -/
def ringLayoutSize (num align : Nat) : Nat :=
  alignUp (16 * num + 6 + 2 * num) align + (6 + 8 * num)

/-- Is n a power of two (used for the align validity check). -/
def isPow2 (n : Nat) : Bool := n != 0 && (n &&& (n - 1)) == 0

/-- Modelled from the spec: the body of l4virtio_config_queue is not in
the source tree. A queue index beyond the queue array fails with the
out-of-range error (-L4_ERANGE = -34); an entry whose configured num
exceeds num_max, or whose ring layout starting at
pfn * guest_page_size does not fit the registered region, fails with
the I/O-configuration error (-L4_EIO = -5); any other malformed entry
(align not a power of two) fails with the generic invalid-argument
error (-L4_EINVAL = -22); otherwise the call succeeds and returns 0. -/
def l4virtio_config_queue (dev : DeviceState) (queue : Nat) : Int :=
  match dev.queues[queue]? with
  | none => -34
  | some q =>
    if q.num_max < q.num ∨
        dev.ds_size < q.pfn * dev.guest_page_size + ringLayoutSize q.num q.align
    then -5
    else if isPow2 q.align then 0 else -22

/- ------------------------------------------------------------------
   Status state machine.

   The body of l4virtio_set_status is not part of the source tree; the
   transition rule is modelled from spec section 4.2.
   ------------------------------------------------------------------ -/

/-- Whether the FAILED bit is set in a status value. -/
def statusFailed (s : Nat) : Bool := s &&& L4VIRTIO_STATUS_FAILED != 0

/-- Modelled from the spec: the body of l4virtio_set_status is not in
the source tree. A write is applied when it only adds bits to the
current register value; a write of exactly 0 is a hard reset and is
applied unless the device has failed; after FAILED no bit may ever be
cleared, so once FAILED is set only bit-adding writes are accepted.
Returns the new register value, or none when the write is rejected. -/
def l4virtio_set_status (cur new : Nat) : Option Nat :=
  if new = 0 then
    if statusFailed cur then none else some 0
  else if cur &&& new = cur then some new
  else none

/- ------------------------------------------------------------------
   Virtqueue ring engine: index counters.

   The ring engine is not part of the source tree; the producer and
   consumer index discipline is modelled from spec sections 4.6 and 8.
   ------------------------------------------------------------------ -/

/-- The two monotonically increasing ring index counters of a
virtqueue: the available index written by the producer and the used
index written by the consumer. -/
structure RingState where
  availIdx : Nat
  usedIdx : Nat
  deriving Repr, DecidableEq

/-- Modelled from the spec: one step of the ring protocol on a queue of
num descriptors. The producer publishes a chain head by incrementing
the available index, and does so only while fewer than num entries are
outstanding (when full, backpressure is applied above this layer, so no
publish step happens); the consumer completes one pending entry by
incrementing the used index, and only when a pending entry exists. -/
inductive RingStep (num : Nat) : RingState → RingState → Prop
  | publish (s : RingState) : s.availIdx - s.usedIdx < num →
      RingStep num s { availIdx := s.availIdx + 1, usedIdx := s.usedIdx }
  | complete (s : RingState) : s.usedIdx < s.availIdx →
      RingStep num s { availIdx := s.availIdx, usedIdx := s.usedIdx + 1 }

/-- States reachable from the initial state (both counters zero) by
ring protocol steps. -/
inductive RingReachable (num : Nat) : RingState → Prop
  | init : RingReachable num { availIdx := 0, usedIdx := 0 }
  | step {s t : RingState} : RingReachable num s → RingStep num s t →
      RingReachable num t

/- ------------------------------------------------------------------
   Descriptor chains.

   The descriptor table and the consumer chain walk are not part of
   the source tree; they are modelled from spec sections 3 and 4.6.
   ------------------------------------------------------------------ -/

/-- Modelled from the spec: one descriptor of the descriptor table:
guest-physical address, length, flag bits, index of the next
descriptor in the chain. -/
structure VirtqDesc where
  addr : Nat
  len : Nat
  flags : Nat
  next : Nat
  deriving Repr, DecidableEq

/-- Flag bit marking a descriptor as chained to a next descriptor. -/
def VRING_DESC_F_NEXT : Nat := 1

/-- Whether the chained flag is set in a descriptor. -/
def descChained (d : VirtqDesc) : Bool := d.flags &&& VRING_DESC_F_NEXT != 0

/-- Modelled from the spec: the consumer walk of a descriptor chain
starting at index i of the descriptor table. Follows next links while
the chained flag is set; rejects out-of-range indices and, via the
fuel bound, chains longer than the fuel (in particular cycles). -/
def walkChain (table : List VirtqDesc) : Nat → Nat → Option (List VirtqDesc)
  | 0, _ => none
  | fuel + 1, i =>
    match table[i]? with
    | none => none
    | some d =>
      if descChained d then
        (walkChain table fuel d.next).map (fun rest => d :: rest)
      else
        some [d]

/-- Modelled from the spec: the chain the producer wrote into the
descriptor table with head index i is the descriptor sequence ds:
every descriptor sits in the table at the index reached by the next
links, every descriptor except the last carries the chained flag, and
the last does not. A derivation is finite, so a chain has no cycle and
no out-of-range index. -/
inductive ChainAt (table : List VirtqDesc) : Nat → List VirtqDesc → Prop
  | last (i : Nat) (d : VirtqDesc) :
      table[i]? = some d → descChained d = false → ChainAt table i [d]
  | cons (i : Nat) (d : VirtqDesc) (rest : List VirtqDesc) :
      table[i]? = some d → descChained d = true →
      ChainAt table d.next rest → ChainAt table i (d :: rest)

end L4virtio

namespace L4virtio

/- ------------------------------------------------------------------
   Theorems for the layout and constant claims.
   ------------------------------------------------------------------ -/

/-- Claim C6: the device status register bit values are exactly
ACKNOWLEDGE=1, DRIVER=2, DRIVER_OK=4, FEATURES_OK=8, FAILED=0x80, and
DRIVER_OK is numerically below FEATURES_OK. -/
theorem status_bit_values :
    L4VIRTIO_STATUS_ACKNOWLEDGE = 1 ∧
    L4VIRTIO_STATUS_DRIVER = 2 ∧
    L4VIRTIO_STATUS_DRIVER_OK = 4 ∧
    L4VIRTIO_STATUS_FEATURES_OK = 8 ∧
    L4VIRTIO_STATUS_FAILED = 0x80 ∧
    L4VIRTIO_STATUS_DRIVER_OK < L4VIRTIO_STATUS_FEATURES_OK := by
  decide

/-- Claim C7: the device-class identifiers are exactly network=1,
block=2, console=3, entropy-source=4, memory-balloon=5, rpmsg=7,
SCSI=8, 9P=9, rproc-serial=11, CAIF=12, socket=0x9999, and no
identifier is assigned to the values 6 or 10. -/
theorem device_id_values :
    L4VIRTIO_ID_NET = 1 ∧
    L4VIRTIO_ID_BLOCK = 2 ∧
    L4VIRTIO_ID_CONSOLE = 3 ∧
    L4VIRTIO_ID_RNG = 4 ∧
    L4VIRTIO_ID_BALLOON = 5 ∧
    L4VIRTIO_ID_RPMSG = 7 ∧
    L4VIRTIO_ID_SCSI = 8 ∧
    L4VIRTIO_ID_9P = 9 ∧
    L4VIRTIO_ID_RPROC_SERIAL = 11 ∧
    L4VIRTIO_ID_CAIF = 12 ∧
    L4VIRTIO_ID_SOCK = 0x9999 ∧
    6 ∉ deviceIdValues ∧
    10 ∉ deviceIdValues := by
  decide

/-- Claim C10: the four control-plane opcodes are consecutive values
starting at zero — set status = 0, configure queue = 1, register
interface = 2, register data space = 3 — under protocol number 0. -/
theorem opcode_values :
    L4VIRTIO_PROTOCOL = 0 ∧
    L4VIRTIO_OP_SET_STATUS = 0 ∧
    L4VIRTIO_OP_CONFIG_QUEUE = 1 ∧
    L4VIRTIO_OP_REGISTER_IFACE = 2 ∧
    L4VIRTIO_OP_REGISTER_DS = 3 ∧
    L4VIRTIO_OP_CONFIG_QUEUE = L4VIRTIO_OP_SET_STATUS + 1 ∧
    L4VIRTIO_OP_REGISTER_IFACE = L4VIRTIO_OP_CONFIG_QUEUE + 1 ∧
    L4VIRTIO_OP_REGISTER_DS = L4VIRTIO_OP_REGISTER_IFACE + 1 := by
  decide

/-- Claim C2: the config header consists, in order, of magic(4B),
version(4B), device(4B), vendor(4B), num_queues(4B), queues_offset(4B),
dev_cfg_offset(4B), generation(4B), status(4B), irq_status(4B),
host_features(8 x 4B), guest_features(8 x 4B), guest_page_size(4B), so
status is at byte offset 32, guest_page_size at byte offset 104 and the
header occupies 108 bytes; a queue config entry is num_max(2B at 0),
num(2B at 2), align(4B at 4), pfn(4B at 8), occupying 12 bytes. -/
theorem config_layout :
    (l4virtio_config_hdr_fields.map Prod.fst =
      ["magic", "version", "device", "vendor", "num_queues",
       "queues_offset", "dev_cfg_offset", "generation", "status",
       "irq_status", "host_features", "guest_features",
       "guest_page_size"]) ∧
    fieldOffset l4virtio_config_hdr_fields "status" = some 32 ∧
    fieldOffset l4virtio_config_hdr_fields "guest_page_size" = some 104 ∧
    fieldSize l4virtio_config_hdr_fields "host_features" = some 32 ∧
    fieldSize l4virtio_config_hdr_fields "guest_features" = some 32 ∧
    structSize l4virtio_config_hdr_fields = 108 ∧
    fieldOffset l4virtio_config_queue_fields "num_max" = some 0 ∧
    fieldSize l4virtio_config_queue_fields "num_max" = some 2 ∧
    fieldOffset l4virtio_config_queue_fields "num" = some 2 ∧
    fieldSize l4virtio_config_queue_fields "num" = some 2 ∧
    fieldOffset l4virtio_config_queue_fields "align" = some 4 ∧
    fieldSize l4virtio_config_queue_fields "align" = some 4 ∧
    fieldOffset l4virtio_config_queue_fields "pfn" = some 8 ∧
    fieldSize l4virtio_config_queue_fields "pfn" = some 4 ∧
    structSize l4virtio_config_queue_fields = 12 := by
  decide

/-- A config header whose offsets point past a config region of 108
bytes (the bare header), used to exhibit that the inline accessors do
not bounds-check. -/
def badHdr : ConfigHdr :=
  { num_queues := 1, queues_offset := 200, dev_cfg_offset := 300,
    guest_page_size := 4096 }

/-- Claim C4, counterexample: it is not true that the accessors never
yield an address outside the config region. The inline functions
l4virtio_config_queues and l4virtio_device_config add the offset field
to the base address without any validation: with a region of 108 bytes
(the bare header) and queues_offset = 200, the computed queue-config
address plus the entry size lies past the region end, and likewise for
dev_cfg_offset = 300. -/
theorem accessors_unbounded_counterexample :
    ¬ (∀ (base : Nat) (cfg : ConfigHdr) (region_size : Nat),
        structSize l4virtio_config_hdr_fields ≤ region_size →
        l4virtio_config_queues base cfg + structSize l4virtio_config_queue_fields
            ≤ base + region_size ∧
        l4virtio_device_config base cfg ≤ base + region_size) := by
  intro h
  exact absurd (h 0 badHdr 108 (by decide)) (by decide)

/-- Claim C4, amended: the queue-config-array pointer and the
device-config pointer are computed exactly as base + queues_offset and
base + dev_cfg_offset respectively; the accessors themselves perform no
bounds validation, so validating offset + structure size against the
region size is the callers responsibility. -/
theorem accessors_compute_base_plus_offset (base : Nat) (cfg : ConfigHdr) :
    l4virtio_config_queues base cfg = base + cfg.queues_offset ∧
    l4virtio_device_config base cfg = base + cfg.dev_cfg_offset :=
  ⟨rfl, rfl⟩

/-- Claim C5: for every caller rights value and every data-space handle,
the effective rights granted to the device are the callers rights
intersected with the mask in the low 8 bits of the handle, hence always
a subset of (and never exceeding) the callers rights. -/
theorem register_ds_rights_subset (caller_rights ds_cap : Nat) :
    effectiveRights caller_rights ds_cap &&& caller_rights =
      effectiveRights caller_rights ds_cap ∧
    effectiveRights caller_rights ds_cap ≤ caller_rights := by
  constructor
  · show (caller_rights &&& rightsMask ds_cap) &&& caller_rights =
      caller_rights &&& rightsMask ds_cap
    rw [Nat.and_assoc, Nat.and_comm (rightsMask ds_cap) caller_rights,
      ← Nat.and_assoc, Nat.and_self]
  · exact Nat.and_le_left

/-- Claim C1: configure_queue returns the distinct out-of-range code
(-34, i.e. -L4_ERANGE) when the index is not below num_queues; the
distinct I/O-configuration code (-5, i.e. -L4_EIO) when the entry has
num above num_max or its ring layout at pfn * guest_page_size exceeds
the registered region; the distinct generic invalid-argument code
(-22, i.e. -L4_EINVAL) for any other malformed entry; and 0 on
success; the three codes are negative and pairwise distinct. -/
theorem config_queue_error_codes (dev : DeviceState) (queue : Nat) :
    (numQueues dev ≤ queue → l4virtio_config_queue dev queue = -34) ∧
    (∀ q, dev.queues[queue]? = some q →
      ((q.num_max < q.num ∨
          dev.ds_size < q.pfn * dev.guest_page_size + ringLayoutSize q.num q.align) →
        l4virtio_config_queue dev queue = -5) ∧
      (¬ (q.num_max < q.num ∨
          dev.ds_size < q.pfn * dev.guest_page_size + ringLayoutSize q.num q.align) →
        isPow2 q.align = false → l4virtio_config_queue dev queue = -22) ∧
      (¬ (q.num_max < q.num ∨
          dev.ds_size < q.pfn * dev.guest_page_size + ringLayoutSize q.num q.align) →
        isPow2 q.align = true → l4virtio_config_queue dev queue = 0)) ∧
    ((-34 : Int) < 0 ∧ (-5 : Int) < 0 ∧ (-22 : Int) < 0 ∧
      (-34 : Int) ≠ -5 ∧ (-34 : Int) ≠ -22 ∧ (-5 : Int) ≠ -22) := by
  refine ⟨?_, ?_, by decide⟩
  · intro hrange
    have hnone : dev.queues[queue]? = none := by
      rw [List.getElem?_eq_none_iff]
      exact hrange
    simp [l4virtio_config_queue, hnone]
  · intro q hq
    refine ⟨?_, ?_, ?_⟩
    · intro hcond
      simp only [l4virtio_config_queue, hq]
      rw [if_pos hcond]
    · intro hcond halign
      simp only [l4virtio_config_queue, hq]
      rw [if_neg hcond, if_neg (by simp [halign])]
    · intro hcond halign
      simp only [l4virtio_config_queue, hq]
      rw [if_neg hcond, if_pos halign]

/-- A device with one well-formed queue entry, used as concrete input. -/
def devW : DeviceState :=
  { queues := [{ num_max := 8, num := 4, align := 4096, pfn := 0 }],
    guest_page_size := 4096, ds_size := 0x100000 }

/-- Witness for claim C1: on a concrete device with one valid queue,
configure_queue succeeds for index 0 and returns the out-of-range code
for index 3. -/
theorem config_queue_error_codes_witness :
    l4virtio_config_queue devW 0 = 0 ∧ l4virtio_config_queue devW 3 = -34 := by
  constructor
  · exact ((config_queue_error_codes devW 0).2.1
      { num_max := 8, num := 4, align := 4096, pfn := 0 }
      (by decide)).2.2 (by decide) (by decide)
  · exact (config_queue_error_codes devW 3).1 (by decide)

/-- Claim C3: every accepted status write either is the hard reset to 0
or only adds bits to the current value (the register never decreases);
once FAILED is set no accepted write clears any bit (not even the
reset) and FAILED stays set; and the monotonic lifecycle sequence
0, ACKNOWLEDGE, +DRIVER, +FEATURES_OK, +DRIVER_OK is accepted step by
step. -/
theorem set_status_monotonic (cur new next : Nat) :
    (l4virtio_set_status cur new = some next →
      next = 0 ∨ cur &&& next = cur) ∧
    (statusFailed cur = true → l4virtio_set_status cur new = some next →
      cur &&& next = cur ∧ statusFailed next = true) ∧
    (l4virtio_set_status 0 L4VIRTIO_STATUS_ACKNOWLEDGE = some 1 ∧
      l4virtio_set_status 1 (1 ||| L4VIRTIO_STATUS_DRIVER) = some 3 ∧
      l4virtio_set_status 3 (3 ||| L4VIRTIO_STATUS_FEATURES_OK) = some 11 ∧
      l4virtio_set_status 11 (11 ||| L4VIRTIO_STATUS_DRIVER_OK) = some 15) := by
  refine ⟨?_, ?_, by decide⟩
  · intro h
    by_cases h0 : new = 0
    · subst h0
      by_cases hf : statusFailed cur = true
      · simp [l4virtio_set_status, hf] at h
      · left
        simp [l4virtio_set_status, hf] at h
        omega
    · by_cases hm : cur &&& new = cur
      · right
        have hnext : next = new := by
          simp [l4virtio_set_status, h0, hm] at h
          omega
        rw [hnext]
        exact hm
      · simp [l4virtio_set_status, h0, hm] at h
  · intro hf h
    by_cases h0 : new = 0
    · subst h0
      simp [l4virtio_set_status, hf] at h
    · by_cases hm : cur &&& new = cur
      · have hnext : next = new := by
          simp [l4virtio_set_status, h0, hm] at h
          omega
        subst hnext
        refine ⟨hm, ?_⟩
        by_cases hn : next &&& L4VIRTIO_STATUS_FAILED = 0
        · exfalso
          have hz : cur &&& L4VIRTIO_STATUS_FAILED = 0 := by
            calc cur &&& L4VIRTIO_STATUS_FAILED
                = (cur &&& next) &&& L4VIRTIO_STATUS_FAILED := by rw [hm]
              _ = cur &&& (next &&& L4VIRTIO_STATUS_FAILED) :=
                  Nat.and_assoc cur next L4VIRTIO_STATUS_FAILED
              _ = 0 := by rw [hn, Nat.and_zero]
          simp [statusFailed, hz] at hf
        · simp [statusFailed, hn]
      · simp [l4virtio_set_status, h0, hm] at h

/-- Witness for claim C3: on concrete values 128 (FAILED set) and 129,
the write is accepted, adds bits only, and keeps FAILED set. -/
theorem set_status_monotonic_witness :
    ((129 : Nat) = 0 ∨ (128 : Nat) &&& 129 = 128) ∧
    ((128 : Nat) &&& 129 = 128 ∧ statusFailed 129 = true) :=
  ⟨(set_status_monotonic 128 129 129).1 (by decide),
    (set_status_monotonic 128 129 129).2.1 (by decide) (by decide)⟩

/-- Claim C8: in every reachable state of the ring protocol on a queue
of num descriptors, the producer has at most num entries outstanding
(availIdx - usedIdx is at most num) and the used index never overtakes
the available index. -/
theorem ring_capacity_invariant (num : Nat) (s : RingState)
    (h : RingReachable num s) :
    s.availIdx - s.usedIdx ≤ num ∧ s.usedIdx ≤ s.availIdx := by
  induction h with
  | init => exact ⟨by simp, Nat.le_refl 0⟩
  | step hr hs ih =>
    obtain ⟨ih1, ih2⟩ := ih
    cases hs with
    | publish hlt =>
      refine ⟨?_, ?_⟩ <;> dsimp only <;> omega
    | complete hlt =>
      refine ⟨?_, ?_⟩ <;> dsimp only <;> omega

/-- Witness for claim C8: the state after one publish on a queue of two
descriptors is reachable and satisfies the capacity invariant. -/
theorem ring_capacity_invariant_witness :
    ({ availIdx := 1, usedIdx := 0 } : RingState).availIdx -
        ({ availIdx := 1, usedIdx := 0 } : RingState).usedIdx ≤ 2 ∧
    ({ availIdx := 1, usedIdx := 0 } : RingState).usedIdx ≤
        ({ availIdx := 1, usedIdx := 0 } : RingState).availIdx :=
  ring_capacity_invariant 2 { availIdx := 1, usedIdx := 0 }
    (RingReachable.step RingReachable.init
      (RingStep.publish { availIdx := 0, usedIdx := 0 } (by decide)))

/-- Claim C9: for every valid descriptor chain the producer wrote into
the table (linked by next indices, all in range, terminated by the
absence of the chained flag, cycle-free), the consumer walk with
sufficient fuel reconstructs exactly that chain: the same descriptors
with identical address, length and flag fields, in the same order. -/
theorem chain_roundtrip (table : List VirtqDesc) (i : Nat)
    (ds : List VirtqDesc) (h : ChainAt table i ds) (fuel : Nat)
    (hfuel : ds.length ≤ fuel) :
    walkChain table fuel i = some ds := by
  induction h generalizing fuel with
  | last j d hj hflag =>
    cases fuel with
    | zero => simp at hfuel
    | succ f => simp [walkChain, hj, hflag]
  | cons j d rest hj hflag hrest ih =>
    cases fuel with
    | zero => simp at hfuel
    | succ f =>
      have hf : rest.length ≤ f := by
        simp only [List.length_cons] at hfuel
        omega
      simp [walkChain, hj, hflag, ih f hf]

/-- A concrete two-descriptor table holding one chain: descriptor 0
(chained) points at descriptor 1 (end of chain). -/
def tableW : List VirtqDesc :=
  [{ addr := 0x1000, len := 512, flags := 1, next := 1 },
   { addr := 0x2000, len := 256, flags := 0, next := 0 }]

/-- Witness for claim C9: walking the concrete two-descriptor chain at
head index 0 returns exactly the two descriptors in order. -/
theorem chain_roundtrip_witness :
    walkChain tableW 2 0 = some tableW :=
  chain_roundtrip tableW 0 tableW
    (ChainAt.cons 0 { addr := 0x1000, len := 512, flags := 1, next := 1 }
      [{ addr := 0x2000, len := 256, flags := 0, next := 0 }]
      (by decide) (by decide)
      (ChainAt.last 1 { addr := 0x2000, len := 256, flags := 0, next := 0 }
        (by decide) (by decide)))
    2 (by decide)

end L4virtio
